import Mathlib

/-!
A shallow embedding of the core bring-up logic of the LT9211C MIPI-to-LVDS
bridge driver (`drivers/gpu/drm/bridge/lontium-lt9211c-eideal.c`), with
theorems settling the specification claims about it.  Pure computations are
translated function by function from the C source; register traffic is kept
where a claim is about it (the mode matcher's timing-register writes) and
dropped where it is configuration noise.  Machine-integer stores are
modelled with an explicit `% 2^w` wherever the C expression can exceed the
destination width.
-/

namespace LT9211C

/-- Mirror of `struct lt9211c_video_timing`: a full mode timing record plus
the derived pixel clock in kHz (`u32` in C; the other fields are `u16`/`u8`). -/
structure VideoTiming where
  hfront_porch : Nat
  hsync_len : Nat
  hback_porch : Nat
  hactive : Nat
  htotal : Nat
  vfront_porch : Nat
  vsync_len : Nat
  vback_porch : Nat
  vactive : Nat
  vtotal : Nat
  framerate : Nat
  pclk_khz : Nat
deriving DecidableEq

/-- An all-zero timing record (the driver `memset`s its timing to zero). -/
def timing0 : VideoTiming := ⟨0, 0, 0, 0, 0, 0, 0, 0, 0, 0, 0, 0⟩

/-- Mirror of the static table `lt9211c_support_timing[]`, in source order
(21 entries; the commented-out entry of the source is omitted there too).
The `pclk_khz` field is 0 in every entry, as in the C initializer. -/
def supportTiming : List VideoTiming :=
  [ ⟨24, 96, 40, 640, 800, 33, 2, 10, 480, 525, 60, 0⟩
  , ⟨16, 62, 60, 720, 858, 9, 6, 30, 480, 525, 60, 0⟩
  , ⟨12, 64, 88, 720, 864, 5, 5, 39, 576, 625, 50, 0⟩
  , ⟨48, 128, 88, 800, 1056, 1, 4, 23, 600, 628, 60, 0⟩
  , ⟨110, 40, 220, 1280, 1650, 5, 5, 20, 720, 750, 30, 0⟩
  , ⟨440, 40, 220, 1280, 1980, 5, 5, 20, 720, 750, 50, 0⟩
  , ⟨110, 40, 220, 1280, 1650, 5, 5, 20, 720, 750, 60, 0⟩
  , ⟨24, 136, 160, 1024, 1344, 3, 6, 29, 768, 806, 60, 0⟩
  , ⟨26, 110, 110, 1366, 1592, 13, 6, 13, 768, 800, 60, 0⟩
  , ⟨110, 40, 220, 1280, 1650, 5, 5, 20, 720, 750, 30, 0⟩
  , ⟨48, 32, 80, 1920, 2080, 5, 5, 20, 720, 750, 60, 0⟩
  , ⟨48, 112, 248, 1280, 1688, 1, 3, 38, 1024, 1066, 60, 0⟩
  , ⟨88, 44, 148, 1920, 2200, 4, 5, 36, 1080, 1125, 30, 0⟩
  , ⟨88, 44, 148, 1920, 2200, 4, 5, 36, 1080, 1125, 60, 0⟩
  , ⟨88, 44, 148, 1920, 2200, 4, 5, 36, 1080, 1125, 90, 0⟩
  , ⟨64, 192, 304, 1600, 2160, 1, 3, 46, 1200, 1250, 60, 0⟩
  , ⟨48, 32, 80, 1920, 2080, 3, 6, 26, 1200, 1235, 60, 0⟩
  , ⟨32, 48, 80, 2048, 2208, 6, 3, 28, 1280, 1317, 60, 0⟩
  , ⟨50, 48, 80, 2304, 2482, 6, 3, 32, 1440, 1481, 60, 0⟩
  , ⟨48, 32, 80, 2560, 2720, 3, 5, 33, 1440, 1481, 60, 0⟩
  , ⟨1276, 88, 296, 3840, 5500, 8, 10, 72, 2160, 2250, 24, 0⟩ ]

/-- The table's 1920x1080@60 record (`supportTiming` index 13). -/
def entry1080p60 : VideoTiming := ⟨88, 44, 148, 1920, 2200, 4, 5, 36, 1080, 1125, 60, 0⟩

/-- The table's 1920x1080@90 record (`supportTiming` index 14). -/
def entry1080p90 : VideoTiming := ⟨88, 44, 148, 1920, 2200, 4, 5, 36, 1080, 1125, 90, 0⟩

/-- Spec-side acceptance test for one table entry: exact resolution match and
nominal frame rate within plus/minus 3 of the measured rate.  The frame-rate
window is the logical complement of the two skip tests in
`lt9211c_mipi_rx_video_timing_sel` (C int arithmetic, hence `Int`). -/
def timingPred (hact vact rate : Nat) (e : VideoTiming) : Bool :=
  decide (hact = e.hactive) && decide (vact = e.vactive) &&
  decide ((e.framerate : Int) - 3 ≤ (rate : Int)) &&
  decide ((rate : Int) ≤ (e.framerate : Int) + 3)

/-- The ResolvedTiming built on a match (body of the success branch of
`lt9211c_mipi_rx_video_timing_sel`, lines 518-532): every timing field is
copied from the table entry, `framerate` is the measured rate, and
`pclk_khz = (u32)htotal * (u32)vtotal * table_framerate / 1000` computed in
u32 arithmetic (the table's nominal rate, as in the source). -/
def buildResolved (rate : Nat) (e : VideoTiming) : VideoTiming :=
  { hfront_porch := e.hfront_porch
  , hsync_len := e.hsync_len
  , hback_porch := e.hback_porch
  , hactive := e.hactive
  , htotal := e.htotal
  , vfront_porch := e.vfront_porch
  , vsync_len := e.vsync_len
  , vback_porch := e.vback_porch
  , vactive := e.vactive
  , vtotal := e.vtotal
  , framerate := rate
  , pclk_khz := e.htotal * e.vtotal * e.framerate % 4294967296 / 1000 }

/-- The register writes of `lt9211c_mipi_rx_video_timing_set`: page select
0xd0 then the 12 input-front-end timing registers, as (offset, byte) pairs.
High bytes are the C `>> 8`; the low-byte writes keep the low 8 bits, which
is what the 8-bit register receives. -/
def timingSetWrites (t : VideoTiming) : List (Nat × Nat) :=
  [ (0xff, 0xd0)
  , (0x0d, t.vtotal / 256), (0x0e, t.vtotal % 256)
  , (0x0f, t.vactive / 256), (0x10, t.vactive % 256)
  , (0x15, t.vsync_len % 256)
  , (0x17, t.vfront_porch / 256), (0x18, t.vfront_porch % 256)
  , (0x11, t.htotal / 256), (0x12, t.htotal % 256)
  , (0x13, t.hactive / 256), (0x14, t.hactive % 256)
  , (0x4c, t.hsync_len % 256)
  , (0x19, t.hfront_porch / 256), (0x1a, t.hfront_porch % 256) ]

/-- Result of one run of the mode matcher: the (possibly updated) stored
resolved timing, the timing-register writes it issued, and whether it
matched (`ok = false` models the `-ENOPARAM` "no match" return). -/
structure SelResult where
  timing : VideoTiming
  writes : List (Nat × Nat)
  ok : Bool
deriving DecidableEq

/-- The scan loop of `lt9211c_mipi_rx_video_timing_sel` (lines 501-537):
walk the table in order, skip on resolution mismatch, skip when the measured
rate is outside the nominal rate's plus/minus 3 window, and on the first
surviving entry overwrite the stored timing with `buildResolved` and issue
the `lt9211c_mipi_rx_video_timing_set` writes; falling off the end leaves
the stored timing `old` untouched and issues no writes. -/
def videoTimingSelGo (hact vact rate : Nat) (old : VideoTiming) :
    List VideoTiming → SelResult
  | [] => ⟨old, [], false⟩
  | e :: rest =>
    if hact ≠ e.hactive ∨ vact ≠ e.vactive then
      videoTimingSelGo hact vact rate old rest
    else if (rate : Int) < (e.framerate : Int) - 3 ∨
            (e.framerate : Int) + 3 < (rate : Int) then
      videoTimingSelGo hact vact rate old rest
    else
      ⟨buildResolved rate e, timingSetWrites (buildResolved rate e), true⟩

/-- `lt9211c_mipi_rx_video_timing_sel` applied to the full support table.
`hact`/`vact` are the probe's measured active sizes and `rate` the measured
frame rate from `lt9211c_video_check_framerate_get`. -/
def videoTimingSel (hact vact rate : Nat) (old : VideoTiming) : SelResult :=
  videoTimingSelGo hact vact rate old supportTiming

/-- Frame-time assembly of `lt9211c_video_check_framerate_get`: the three
byte reads at 0x86:0x43..0x45 shifted together into a 24-bit value. -/
def frametimeAssemble (b43 b44 b45 : Nat) : Nat :=
  ((b43 * 256) + b44) * 256 + b45

/-- Rate computation of `lt9211c_video_check_framerate_get`:
`(25000000 * 2 / frametime + 1) / 2` truncated to `u8`.  The C source
divides unconditionally; a zero assembled frametime is a division by zero
(undefined behaviour), modelled here as `none`. -/
def framerateGet (b43 b44 b45 : Nat) : Option Nat :=
  if frametimeAssemble b43 b44 b45 = 0 then none
  else some ((25000000 * 2 / frametimeAssemble b43 b44 b45 + 1) / 2 % 256)

/-- The `switch (fmt)` of `lt9211c_mipi_rx_hact_get` (lines 396-439): the
word count converted to an active pixel count by the packed format's
rational factor, stored into the `u16` field `hact` (hence `% 65536`). -/
def mipiRxHactGet (fmt wc : Nat) : Nat :=
  match fmt with
  | 0x01 | 0x0e => wc * 5 / 2 % 65536
  | 0x02 => wc / 3 % 65536
  | 0x03 => wc / 2 % 65536
  | 0x04 => wc * 15 / 4 % 65536
  | 0x05 => wc * 9 / 2 % 65536
  | 0x06 => wc / 3 % 65536
  | 0x0a => wc / 3 % 65536
  | 0x07 => wc / 2 % 65536
  | 0x08 | 0x09 => wc * 9 / 4 % 65536
  | 0x0b => wc / 1 % 65536
  | 0x0c => wc * 5 / 4 % 65536
  | 0x0d => wc * 3 / 2 % 65536
  | _ => wc / 3 % 65536

/-- Spec-side table of per-format rational factors as (numerator,
denominator), one factor per packed-format code with the 24-bits-per-pixel
fallback (1, 3) for codes outside the enumerated set; kept branch-for-branch
parallel to `mipiRxHactGet` for the refinement proof. -/
def pixelFormatFactor (fmt : Nat) : Nat × Nat :=
  match fmt with
  | 0x01 | 0x0e => (5, 2)
  | 0x02 => (1, 3)
  | 0x03 => (1, 2)
  | 0x04 => (15, 4)
  | 0x05 => (9, 2)
  | 0x06 => (1, 3)
  | 0x0a => (1, 3)
  | 0x07 => (1, 2)
  | 0x08 | 0x09 => (9, 4)
  | 0x0b => (1, 1)
  | 0x0c => (5, 4)
  | 0x0d => (3, 2)
  | _ => (1, 3)

/-- Divider band selection of `lt9211c_mipi_rx_dessc_pll_set`
(lines 582-612): six descending pixel-clock bands give dividers
2, 2, 4, 8, 16, 16. -/
def desscPllDivSel (pclk : Nat) : Nat :=
  if 352000 ≤ pclk then 2
  else if 176000 ≤ pclk then 2
  else if 88000 ≤ pclk then 4
  else if 44000 ≤ pclk then 8
  else if 22000 ≤ pclk then 16
  else 16

/-- Mirror of `struct lt9211c_pcr_setting` (all fields `u32`). -/
structure PcrSetting where
  pcr_m : Nat
  pcr_k : Nat
  pcr_up_limit : Nat
  pcr_down_limit : Nat
deriving DecidableEq

/-- Fractional-calibration computation of `lt9211c_mipi_rx_dessc_pll_set`
(lines 614-621), in u32 arithmetic: the product `pclk * div` wraps at 2^32,
and `pcr_m - 1` wraps when `pcr_m = 0` (modelled as `+ (2^32 - 1) mod 2^32`);
the remaining operations cannot exceed 32 bits. -/
def desscPllPcrSetting (pclk : Nat) : PcrSetting :=
  let derived := pclk * desscPllDivSel pclk % 4294967296 / 25
  { pcr_m := derived / 1000
  , pcr_k := derived % 1000 * 16384
  , pcr_up_limit := derived / 1000 + 1
  , pcr_down_limit := (derived / 1000 + 4294967295) % 4294967296 }

/-- The 2-bit stability test of `lt9211c_mipi_rx_pcr_calibration`:
`(data & 0x18) == 0x18` on the byte read from register 0x87. -/
def pcrStable (b : Nat) : Bool := Nat.land b 0x18 == 0x18

/-- The polling loop of `lt9211c_mipi_rx_pcr_calibration` (lines 724-738):
each iteration sleeps 500 ms, reads the status byte (given by `reads` as a
function of the iteration index), breaks successfully when the stable mask
is set, and otherwise returns failure once the counter exceeds 50.  Returns
(stable?, number of iterations executed); `fuel` only bounds the recursion
and is never exhausted when started at 60. -/
def pcrLoop (reads : Nat → Nat) : Nat → Nat → Nat → Bool × Nat
  | _count, i, 0 => (false, i)
  | count, i, fuel + 1 =>
    if pcrStable (reads i) then (true, i + 1)
    else if 50 < count then (false, i + 1)
    else pcrLoop reads (count + 1) (i + 1) fuel

/-- The polling loop started as in the source: counter 0, first read index 0. -/
def pcrRun (reads : Nat → Nat) : Bool × Nat := pcrLoop reads 0 0 60

/-- A status-byte stream that never has the stable mask set. -/
def readsZero : Nat → Nat := fun _ => 0

/-- A status-byte stream with the stable mask set from the first read. -/
def readsStable : Nat → Nat := fun _ => 0x18

/-- Phy clock of `lt9211c_lvds_tx_pll_config` for the dual-port output:
`pclk * 7 / 2`. -/
def lvdsTxPhyClk (pclk : Nat) : Nat := pclk * 7 / 2

/-- Pre-divider band selection of `lt9211c_lvds_tx_pll_config`
(lines 845-879): ascending pixel-clock bands. -/
def lvdsTxPreDiv (pclk : Nat) : Nat :=
  if pclk < 20000 then 1
  else if pclk < 40000 then 1
  else if pclk < 80000 then 2
  else if pclk < 160000 then 4
  else if pclk < 320000 then 8
  else 16

/-- Serial-clock-divider band selection of `lt9211c_lvds_tx_pll_config`
(lines 881-907): descending phy-clock bands. -/
def lvdsTxSerialClkDiv (phy : Nat) : Nat :=
  if 640000 ≤ phy then 1
  else if 320000 ≤ phy then 2
  else if 160000 ≤ phy then 4
  else if 80000 ≤ phy then 8
  else 16

/-- Mirror of `enum lt9211c_state`. -/
inductive LtState where
  | prepare
  | chiprx_vidtiming_config
  | chiprx_pll_config
  | chiptx_config_video
  | chiptx_video_out
deriving DecidableEq

/-- Stage outcomes for one invocation of `lt9211c_module_config`:
whether the timing probe plus mode matcher succeed, the probed format code
on failure, whether DESSC PLL setup plus PCR calibration succeed, the
per-attempt video-stability check, and whether the TX PLL locks. -/
structure Env where
  timingConfigOk : Bool
  fmt : Nat
  pllConfigOk : Bool
  videoStable : Nat → Bool
  txPllOk : Bool

/-- Outcome of one invocation of `lt9211c_module_config`: the state and the
static failure counter after it returns, whether it rescheduled the delayed
work, and with what delay in ms (0 whenever it reschedules, as in the
source). -/
structure MCResult where
  state : LtState
  counter : Nat
  resched : Bool
  delay : Nat

/-- The bounded stability spin in the `CHIPRX_PLL_CONFIG` arm (lines
1466-1473): re-check `lt9211c_mipi_rx_video_check_stable` until it passes,
incrementing the counter and breaking once it exceeds 50; returns the final
counter value.  `fuel = 60` is never exhausted. -/
def stabilitySpin (ok : Nat → Bool) : Nat → Nat → Nat
  | counter, 0 => counter
  | counter, fuel + 1 =>
    if ok counter then counter
    else if 50 < counter + 1 then counter + 1
    else stabilitySpin ok (counter + 1) fuel

/-- The `CHIPTX_VIDEO_OUT` arm: run the output formatter and break with no
reschedule (bring-up complete). -/
def runVideoOut (c : Nat) : MCResult := ⟨LtState.chiptx_video_out, c, false, 0⟩

/-- The `CHIPTX_CONFIG_VIDEO` arm: on TX-PLL failure reschedule after 0 ms
staying in the same state; on success advance and fall through. -/
def runConfigVideo (e : Env) (c : Nat) : MCResult :=
  if e.txPllOk then runVideoOut c
  else ⟨LtState.chiptx_config_video, c, true, 0⟩

/-- The `CHIPRX_PLL_CONFIG` arm: on failure go back to the timing-config
state and reschedule after 0 ms; on success zero the counter, run the
stability spin, and fall through. -/
def runPllConfig (e : Env) (c : Nat) : MCResult :=
  if e.pllConfigOk then runConfigVideo e (stabilitySpin e.videoStable 0 60)
  else ⟨LtState.chiprx_vidtiming_config, c, true, 0⟩

/-- The `CHIPRX_VIDTIMING_CONFIG` arm (lines 1444-1458): on success fall
through; on failure increment the counter, zero it when the probed format
code is 0x0a, fall back to `PREPARE` when the counter exceeds 30, and
reschedule after 0 ms. -/
def runVidTiming (e : Env) (c : Nat) : MCResult :=
  if e.timingConfigOk then runPllConfig e c
  else
    let c2 := if e.fmt = 0x0a then 0 else c + 1
    ⟨if 30 < c2 then LtState.prepare else LtState.chiprx_vidtiming_config,
     c2, true, 0⟩

/-- The `PREPARE` arm: zero the counter, reset and reconfigure the chip
(register traffic only), advance, and fall through. -/
def runPrepare (e : Env) : MCResult := runVidTiming e 0

/-- One invocation of `lt9211c_module_config` (lines 1428-1491): the
`switch` starts at the current state and falls through on success. -/
def moduleConfig : LtState → Nat → Env → MCResult
  | LtState.prepare, _, e => runPrepare e
  | LtState.chiprx_vidtiming_config, c, e => runVidTiming e c
  | LtState.chiprx_pll_config, c, e => runPllConfig e c
  | LtState.chiptx_config_video, c, e => runConfigVideo e c
  | LtState.chiptx_video_out, c, _ => runVideoOut c

/-- An environment in which every stage succeeds at the first attempt. -/
def envAllOk : Env :=
  { timingConfigOk := true, fmt := 0x0a, pllConfigOk := true
  , videoStable := fun _ => true, txPllOk := true }

/-- An environment in which the timing probe or matcher fails with a probed
format code other than 0x0a. -/
def envTimingFail : Env :=
  { timingConfigOk := false, fmt := 5, pllConfigOk := true
  , videoStable := fun _ => true, txPllOk := true }

/-- The scan loop returns the result built from the first table entry
accepted by `timingPred`, and the untouched old state when no entry is. -/
theorem videoTimingSelGo_eq_find (hact vact rate : Nat) (old : VideoTiming) :
    ∀ l : List VideoTiming,
      videoTimingSelGo hact vact rate old l =
        match List.find? (timingPred hact vact rate) l with
        | some e => ⟨buildResolved rate e, timingSetWrites (buildResolved rate e), true⟩
        | none => ⟨old, [], false⟩ := by
  intro l
  induction l with
  | nil => rfl
  | cons e rest ih =>
    by_cases h1 : hact ≠ e.hactive ∨ vact ≠ e.vactive
    · have hp : ¬ timingPred hact vact rate e = true := by
        rcases h1 with h1 | h1 <;> simp [timingPred, h1]
      rw [List.find?_cons_of_neg _ hp]
      simp only [videoTimingSelGo, if_pos h1]
      exact ih
    · push_neg at h1
      by_cases h2 : (rate : Int) < (e.framerate : Int) - 3 ∨
          (e.framerate : Int) + 3 < (rate : Int)
      · have hp : ¬ timingPred hact vact rate e = true := by
          rcases h2 with h2 | h2 <;> simp [timingPred, h1.1, h1.2] <;> omega
        rw [List.find?_cons_of_neg _ hp]
        simp only [videoTimingSelGo]
        rw [if_neg (by push_neg; exact h1), if_pos h2]
        exact ih
      · push_neg at h2
        have hp : timingPred hact vact rate e = true := by
          simp [timingPred, h1.1, h1.2]
          constructor <;> omega
        rw [List.find?_cons_of_pos _ hp]
        simp only [videoTimingSelGo]
        rw [if_neg (by push_neg; exact h1), if_neg (by push_neg; exact h2)]

/-- No product `htotal * vtotal * framerate` over the support table can
reach 2^32, so the u32 pixel-clock computation never wraps for table
entries. -/
theorem supportTiming_pclk_bound :
    supportTiming.all
      (fun t => decide (t.htotal * t.vtotal * t.framerate < 4294967296)) = true := by
  decide

/-- C1 (amended): for every successful mode match, the stored resolved
timing's pixel clock equals `h-total * v-total * nominal-frame-rate / 1000`
using the matched table entry's nominal rate; the measured rate is stored
only in the `framerate` field and does not enter the pixel-clock
computation. -/
theorem pclk_uses_nominal_rate_c1 :
    ∀ (h v r : Nat) (old e : VideoTiming),
      List.find? (timingPred h v r) supportTiming = some e →
      (videoTimingSel h v r old).timing.pclk_khz =
        e.htotal * e.vtotal * e.framerate / 1000
      ∧ (videoTimingSel h v r old).timing.framerate = r := by
  intro h v r old e hf
  have hmem : e ∈ supportTiming := List.mem_of_find?_eq_some hf
  have hbound : e.htotal * e.vtotal * e.framerate < 4294967296 := by
    have := List.all_eq_true.mp supportTiming_pclk_bound e hmem
    simpa using this
  rw [videoTimingSel, videoTimingSelGo_eq_find, hf]
  refine ⟨?_, rfl⟩
  show e.htotal * e.vtotal * e.framerate % 4294967296 / 1000 = _
  rw [Nat.mod_eq_of_lt hbound]

/-- Witness for C1: probe (1920, 1080) at measured rate 59 matches the
1920x1080@60 entry and yields pixel clock 2200 * 1125 * 60 / 1000. -/
theorem pclk_uses_nominal_rate_c1_witness :
    (videoTimingSel 1920 1080 59 timing0).timing.pclk_khz =
      entry1080p60.htotal * entry1080p60.vtotal * entry1080p60.framerate / 1000 :=
  (pclk_uses_nominal_rate_c1 1920 1080 59 timing0 entry1080p60 (by decide)).1

/-- Counterexample to C1 as stated: for probe (1920, 1080) at measured rate
59 the stored pixel clock (148500, from the nominal 60) differs from
`h-total * v-total * measured-frame-rate / 1000` (which would be 146025). -/
theorem pclk_uses_nominal_rate_c1_cex :
    (videoTimingSel 1920 1080 59 timing0).timing.pclk_khz ≠
      (videoTimingSel 1920 1080 59 timing0).timing.htotal *
      (videoTimingSel 1920 1080 59 timing0).timing.vtotal *
      (videoTimingSel 1920 1080 59 timing0).timing.framerate / 1000 := by
  decide

/-- C4: the mode matcher succeeds exactly when some table entry passes the
resolution-equality and rate-window test, the selected entry is the first
such entry in table order, and in particular probe (1920, 1080) at measured
rate 59 selects the 1920x1080@60 entry at index 13, which precedes the
1920x1080@90 entry at index 14 and has nominal rate 60, not 90. -/
theorem mode_match_first_c4 :
    (∀ (h v r : Nat) (old : VideoTiming),
      ((videoTimingSel h v r old).ok = true ↔
        (List.find? (timingPred h v r) supportTiming).isSome = true))
    ∧ (∀ (h v r : Nat) (old e : VideoTiming),
        List.find? (timingPred h v r) supportTiming = some e →
        (videoTimingSel h v r old).timing = buildResolved r e)
    ∧ List.find? (timingPred 1920 1080 59) supportTiming = some entry1080p60
    ∧ supportTiming[13]? = some entry1080p60
    ∧ supportTiming[14]? = some entry1080p90
    ∧ entry1080p60.framerate = 60
    ∧ entry1080p90.framerate = 90
    ∧ entry1080p60 ≠ entry1080p90 := by
  refine ⟨?_, ?_, by decide, by decide, by decide, by decide, by decide, by decide⟩
  · intro h v r old
    rw [videoTimingSel, videoTimingSelGo_eq_find]
    cases hf : List.find? (timingPred h v r) supportTiming <;> simp
  · intro h v r old e hf
    rw [videoTimingSel, videoTimingSelGo_eq_find, hf]

/-- Witness for C4: the concrete probe (1920, 1080) at rate 59 resolves to
the timing built from the 60 Hz entry. -/
theorem mode_match_first_c4_witness :
    (videoTimingSel 1920 1080 59 timing0).timing = buildResolved 59 entry1080p60 :=
  mode_match_first_c4.2.1 1920 1080 59 timing0 entry1080p60 (by decide)

/-- C10: when no table entry qualifies the matcher leaves the stored
resolved timing untouched and issues no timing-register writes; the timing
is overwritten and the registers written only once a match is found. -/
theorem nomatch_no_writes_c10 :
    (∀ (h v r : Nat) (old : VideoTiming),
      List.find? (timingPred h v r) supportTiming = none →
      videoTimingSel h v r old = ⟨old, [], false⟩)
    ∧ (∀ (h v r : Nat) (old e : VideoTiming),
        List.find? (timingPred h v r) supportTiming = some e →
        (videoTimingSel h v r old).writes =
          timingSetWrites (buildResolved r e)) := by
  constructor
  · intro h v r old hf
    rw [videoTimingSel, videoTimingSelGo_eq_find, hf]
  · intro h v r old e hf
    rw [videoTimingSel, videoTimingSelGo_eq_find, hf]

/-- Witness for C10: probe (100, 100) at rate 60 matches nothing, so the
stored timing stays the all-zero record and no registers are written. -/
theorem nomatch_no_writes_c10_witness :
    videoTimingSel 100 100 60 timing0 = ⟨timing0, [], false⟩ :=
  nomatch_no_writes_c10.1 100 100 60 timing0 (by decide)

/-- C9 (amended): the divisor of the frame-rate division is the assembled
24-bit frametime itself, so the division is by zero exactly when the
assembled counter value is zero; the computation is total only for a
non-zero assembled frametime. -/
theorem framerate_divisor_c9 :
    ∀ b43 b44 b45 : Nat,
      (framerateGet b43 b44 b45 = none ↔ frametimeAssemble b43 b44 b45 = 0) := by
  intro a b c
  unfold framerateGet
  split_ifs with h <;> simp [h]

/-- Witness for C9: a non-zero frametime (register bytes 0, 0x41, 0x5b)
makes the division well defined. -/
theorem framerate_divisor_c9_witness :
    ¬ framerateGet 0 0x41 0x5b = none := by
  rw [framerate_divisor_c9 0 0x41 0x5b]
  decide

/-- Counterexample to C9 as stated: when all three frame-time counter
registers read zero the assembled frametime, which is the divisor, is zero
and the division is by zero (modelled as `none`) — the division-by-zero
branch is reachable, not unreachable. -/
theorem framerate_divisor_c9_cex :
    frametimeAssemble 0 0 0 = 0 ∧ framerateGet 0 0 0 = none := by
  decide

/-- The per-format computation agrees with multiplying the word count by the
spec table's rational factor, truncated to the 16-bit destination field. -/
theorem mipiRxHactGet_eq_factor (fmt wc : Nat) :
    mipiRxHactGet fmt wc =
      wc * (pixelFormatFactor fmt).1 / (pixelFormatFactor fmt).2 % 65536 := by
  rcases fmt with _|_|_|_|_|_|_|_|_|_|_|_|_|_|_|n <;>
    simp [mipiRxHactGet, pixelFormatFactor, Nat.mul_one]

/-- Every format code maps to a factor with non-zero numerator and
denominator. -/
theorem pixelFormatFactor_ne_zero (fmt : Nat) :
    (pixelFormatFactor fmt).1 ≠ 0 ∧ (pixelFormatFactor fmt).2 ≠ 0 := by
  rcases fmt with _|_|_|_|_|_|_|_|_|_|_|_|_|_|_|n <;> simp [pixelFormatFactor]

/-- Codes outside the enumerated set fall back to the 24-bits-per-pixel
factor 1/3. -/
theorem pixelFormatFactor_default (fmt : Nat)
    (h : fmt ∉ ([1, 2, 3, 4, 5, 6, 7, 8, 9, 10, 11, 12, 13, 14] : List Nat)) :
    pixelFormatFactor fmt = (1, 3) := by
  rcases fmt with _|_|_|_|_|_|_|_|_|_|_|_|_|_|_|n <;> simp_all [pixelFormatFactor]

/-- C5 (amended): for every word count and format code the computed active
pixel count equals `wc * numerator / denominator` for that code's factor,
reduced modulo 2^16 by the store into the `u16` field (so it equals
`wc * num / den` exactly whenever that value is below 65536); every
enumerated code maps to exactly one non-zero factor, and codes outside the
enumerated set use the 24-bits-per-pixel fallback `wc / 3`. -/
theorem hact_factor_c5 :
    ∀ fmt wc : Nat,
      mipiRxHactGet fmt wc =
        wc * (pixelFormatFactor fmt).1 / (pixelFormatFactor fmt).2 % 65536
      ∧ (pixelFormatFactor fmt).1 ≠ 0 ∧ (pixelFormatFactor fmt).2 ≠ 0
      ∧ (fmt ∉ ([1, 2, 3, 4, 5, 6, 7, 8, 9, 10, 11, 12, 13, 14] : List Nat) →
          pixelFormatFactor fmt = (1, 3)) :=
  fun fmt wc =>
    ⟨mipiRxHactGet_eq_factor fmt wc, (pixelFormatFactor_ne_zero fmt).1,
     (pixelFormatFactor_ne_zero fmt).2, pixelFormatFactor_default fmt⟩

/-- Witness for C5: RAW10 (code 0x0c) at word count 1000 follows the 5/4
factor, and the unknown code 0 uses the fallback factor. -/
theorem hact_factor_c5_witness :
    mipiRxHactGet 0x0c 1000 =
      1000 * (pixelFormatFactor 0x0c).1 / (pixelFormatFactor 0x0c).2 % 65536
    ∧ pixelFormatFactor 0 = (1, 3) :=
  ⟨(hact_factor_c5 0x0c 1000).1, (hact_factor_c5 0 0).2.2.2 (by decide)⟩

/-- Counterexample to C5 as stated: for RAW10 (code 0x0c) at word count
65535 the stored active pixel count is 16382 (truncated by the 16-bit
field), not `wc * 5 / 4 = 81918`. -/
theorem hact_factor_c5_cex :
    mipiRxHactGet 0x0c 65535 = 16382
    ∧ 65535 * 5 / 4 = 81918
    ∧ mipiRxHactGet 0x0c 65535 ≠ 65535 * 5 / 4 := by
  decide

/-- C6 (amended): for every pixel clock, with `div` the divider the code
selects for it, the computed parameters satisfy
`derived = pclk * div / 25`, `M = derived / 1000`,
`K = (derived mod 1000) << 14` and `up = M + 1` whenever the u32 product
does not wrap, and `down = M - 1` whenever `derived ≥ 1000`; in particular
for pixel clock 148500 the selected divider is 4 (the band `≥ 88000`),
giving derived 23760, M = 23, K = 12451840, up 24, down 22. -/
theorem dessc_pcr_params_c6 :
    (∀ pclk : Nat, pclk * desscPllDivSel pclk < 4294967296 →
      ((desscPllPcrSetting pclk).pcr_m = pclk * desscPllDivSel pclk / 25 / 1000
      ∧ (desscPllPcrSetting pclk).pcr_k =
          pclk * desscPllDivSel pclk / 25 % 1000 * 16384
      ∧ (desscPllPcrSetting pclk).pcr_up_limit =
          pclk * desscPllDivSel pclk / 25 / 1000 + 1
      ∧ (1000 ≤ pclk * desscPllDivSel pclk / 25 →
          (desscPllPcrSetting pclk).pcr_down_limit =
            pclk * desscPllDivSel pclk / 25 / 1000 - 1)))
    ∧ desscPllDivSel 148500 = 4
    ∧ desscPllPcrSetting 148500 = ⟨23, 12451840, 24, 22⟩ := by
  refine ⟨?_, by decide, by decide⟩
  intro pclk h
  have hm : pclk * desscPllDivSel pclk % 4294967296 = pclk * desscPllDivSel pclk :=
    Nat.mod_eq_of_lt h
  simp only [desscPllPcrSetting, hm]
  refine ⟨by trivial, by trivial, by trivial, ?_⟩
  intro h2
  have hd : pclk * desscPllDivSel pclk / 25 ≤ pclk * desscPllDivSel pclk :=
    Nat.div_le_self _ _
  omega

/-- Witness for C6: the parameter relations instantiated at pixel clock
148500 (divider 4, derived 23760). -/
theorem dessc_pcr_params_c6_witness :
    (desscPllPcrSetting 148500).pcr_m = 148500 * desscPllDivSel 148500 / 25 / 1000
    ∧ (desscPllPcrSetting 148500).pcr_down_limit =
        148500 * desscPllDivSel 148500 / 25 / 1000 - 1 :=
  ⟨(dessc_pcr_params_c6.1 148500 (by decide)).1,
   (dessc_pcr_params_c6.1 148500 (by decide)).2.2.2 (by decide)⟩

/-- Counterexample to C6 as stated: at pixel clock 148500 the code selects
divider 4, not 2, and the computed parameters are (23, 12451840, 24, 22),
not the claimed (11, 14417920, 12, 10). -/
theorem dessc_pcr_params_c6_cex :
    desscPllDivSel 148500 ≠ 2
    ∧ desscPllPcrSetting 148500 ≠ ⟨11, 14417920, 12, 10⟩ := by
  decide

/-- C8: the serial-clock divider is a non-increasing step function of the
phy clock with the bands of the source, the pre-divider is a non-decreasing
step function of the pixel clock with the bands of the source, and the phy
clock is `pclk * 7 / 2`. -/
theorem lvds_tx_divider_monotone_c8 :
    (∀ a b : Nat, a ≤ b → lvdsTxSerialClkDiv b ≤ lvdsTxSerialClkDiv a)
    ∧ (∀ a b : Nat, a ≤ b → lvdsTxPreDiv a ≤ lvdsTxPreDiv b)
    ∧ (∀ p : Nat, lvdsTxPhyClk p = p * 7 / 2)
    ∧ (∀ p : Nat,
        (640000 ≤ p → lvdsTxSerialClkDiv p = 1)
        ∧ (320000 ≤ p → p < 640000 → lvdsTxSerialClkDiv p = 2)
        ∧ (160000 ≤ p → p < 320000 → lvdsTxSerialClkDiv p = 4)
        ∧ (80000 ≤ p → p < 160000 → lvdsTxSerialClkDiv p = 8)
        ∧ (p < 80000 → lvdsTxSerialClkDiv p = 16))
    ∧ (∀ p : Nat,
        (p < 20000 → lvdsTxPreDiv p = 1)
        ∧ (20000 ≤ p → p < 40000 → lvdsTxPreDiv p = 1)
        ∧ (40000 ≤ p → p < 80000 → lvdsTxPreDiv p = 2)
        ∧ (80000 ≤ p → p < 160000 → lvdsTxPreDiv p = 4)
        ∧ (160000 ≤ p → p < 320000 → lvdsTxPreDiv p = 8)
        ∧ (320000 ≤ p → lvdsTxPreDiv p = 16)) := by
  refine ⟨?_, ?_, fun _ => rfl, ?_, ?_⟩
  · intro a b hab
    unfold lvdsTxSerialClkDiv
    split_ifs <;> omega
  · intro a b hab
    unfold lvdsTxPreDiv
    split_ifs <;> omega
  · intro p
    refine ⟨?_, ?_, ?_, ?_, ?_⟩ <;>
      (intros; unfold lvdsTxSerialClkDiv; split_ifs <;> omega)
  · intro p
    refine ⟨?_, ?_, ?_, ?_, ?_, ?_⟩ <;>
      (intros; unfold lvdsTxPreDiv; split_ifs <;> omega)

/-- Witness for C8: monotonicity and band values at concrete clocks. -/
theorem lvds_tx_divider_monotone_c8_witness :
    lvdsTxSerialClkDiv 650000 ≤ lvdsTxSerialClkDiv 90000
    ∧ lvdsTxPreDiv 10000 ≤ lvdsTxPreDiv 330000
    ∧ lvdsTxSerialClkDiv 640000 = 1
    ∧ lvdsTxPreDiv 19999 = 1
    ∧ lvdsTxPreDiv 320000 = 16 :=
  ⟨lvds_tx_divider_monotone_c8.1 90000 650000 (by decide),
   lvds_tx_divider_monotone_c8.2.1 10000 330000 (by decide),
   (lvds_tx_divider_monotone_c8.2.2.2.1 640000).1 (by decide),
   (lvds_tx_divider_monotone_c8.2.2.2.2 19999).1 (by decide),
   (lvds_tx_divider_monotone_c8.2.2.2.2 320000).2.2.2.2.2 (by decide)⟩

/-- When the stable mask is never set, the PCR loop runs its remaining
iterations out and fails: counter values up to 50 pass the guard, and the
iteration entered with the counter above 50 returns. -/
theorem pcrLoop_never_stable (reads : Nat → Nat)
    (h : ∀ j, pcrStable (reads j) = false) :
    ∀ fuel count i, 52 ≤ count + fuel → count ≤ 51 →
      pcrLoop reads count i fuel = (false, i + (52 - count)) := by
  intro fuel
  induction fuel with
  | zero => intro count i h1 h2; omega
  | succ fuel ih =>
    intro count i h1 h2
    simp only [pcrLoop, h i, Bool.false_eq_true, if_false]
    by_cases hc : 50 < count
    · have hc51 : count = 51 := by omega
      rw [if_pos hc, hc51]
    · rw [if_neg hc, ih (count + 1) (i + 1) (by omega) (by omega)]
      have harith : i + 1 + (52 - (count + 1)) = i + (52 - count) := by omega
      rw [harith]

/-- When the stable mask first appears at read index `k` within the loop's
budget, the loop exits successfully right there, after `k + 1` reads. -/
theorem pcrLoop_first_stable (reads : Nat → Nat) :
    ∀ k fuel count i, k < fuel → count + k ≤ 51 →
      (∀ j, j < k → pcrStable (reads (i + j)) = false) →
      pcrStable (reads (i + k)) = true →
      pcrLoop reads count i fuel = (true, i + k + 1) := by
  intro k
  induction k with
  | zero =>
    intro fuel count i hf _ _ hs
    cases fuel with
    | zero => omega
    | succ fuel =>
      rw [Nat.add_zero] at hs
      simp only [pcrLoop, hs, if_true]
  | succ k ih =>
    intro fuel count i hf hc hall hs
    cases fuel with
    | zero => omega
    | succ fuel =>
      have h0 : pcrStable (reads i) = false := by
        have := hall 0 (by omega)
        simpa using this
      simp only [pcrLoop, h0, Bool.false_eq_true, if_false]
      rw [if_neg (by omega : ¬ 50 < count)]
      have hall2 : ∀ j, j < k → pcrStable (reads (i + 1 + j)) = false := by
        intro j hj
        have := hall (j + 1) (by omega)
        rwa [show i + (j + 1) = i + 1 + j by omega] at this
      have hs2 : pcrStable (reads (i + 1 + k)) = true := by
        rwa [show i + (k + 1) = i + 1 + k by omega] at hs
      rw [ih fuel (count + 1) (i + 1) (by omega) (by omega) hall2 hs2]
      have harith : i + 1 + k + 1 = i + (k + 1) + 1 := by omega
      rw [harith]

/-- C3 (amended): when the 2-bit stable mask is never observed set, the
polling loop terminates and returns the Unstable failure after exactly 52
poll iterations of 500 ms each (counter values 0 through 50 pass the
`> 50` guard, and the iteration entered with counter 51 returns); when the
mask is first observed set at some executed iteration, the loop exits
successfully at that iteration. -/
theorem pcr_poll_bound_c3 :
    (∀ reads : Nat → Nat, (∀ j, pcrStable (reads j) = false) →
      pcrRun reads = (false, 52))
    ∧ (∀ (reads : Nat → Nat) (k : Nat), k ≤ 51 →
        (∀ j, j < k → pcrStable (reads j) = false) →
        pcrStable (reads k) = true →
        pcrRun reads = (true, k + 1)) := by
  constructor
  · intro reads h
    have := pcrLoop_never_stable reads h 60 0 0 (by omega) (by omega)
    simpa [pcrRun] using this
  · intro reads k hk hall hs
    have := pcrLoop_first_stable reads k 60 0 0 (by omega) (by omega)
      (by simpa using hall) (by simpa using hs)
    simpa [pcrRun] using this

/-- Witness for C3: a stream whose first status byte already has the mask
set exits successfully after one iteration. -/
theorem pcr_poll_bound_c3_witness : pcrRun readsStable = (true, 1) :=
  pcr_poll_bound_c3.2 readsStable 0 (by omega)
    (fun j hj => absurd hj (Nat.not_lt_zero j)) (by decide)

/-- Counterexample to C3 as stated: with the mask never set the loop
executes 52 poll iterations, not at most 51. -/
theorem pcr_poll_bound_c3_cex :
    pcrRun readsZero = (false, 52) ∧ ¬ (pcrRun readsZero).2 ≤ 51 := by
  decide

/-- C2: on a timing-config failure the counter is incremented then zeroed
exactly when the probed format code is 0x0a; the machine moves back to
Prepare exactly when the resulting counter exceeds 30 with a format code
other than 0x0a, otherwise it stays in the timing-config state; and either
way it reschedules itself after 0 ms. -/
theorem vidtiming_failure_retry_c2 :
    ∀ (c : Nat) (e : Env), e.timingConfigOk = false →
      ((moduleConfig LtState.chiprx_vidtiming_config c e).counter
          = if e.fmt = 0x0a then 0 else c + 1)
      ∧ ((moduleConfig LtState.chiprx_vidtiming_config c e).state = LtState.prepare
          ↔ 30 < (moduleConfig LtState.chiprx_vidtiming_config c e).counter
            ∧ e.fmt ≠ 0x0a)
      ∧ ((moduleConfig LtState.chiprx_vidtiming_config c e).state = LtState.prepare
          ∨ (moduleConfig LtState.chiprx_vidtiming_config c e).state
              = LtState.chiprx_vidtiming_config)
      ∧ (moduleConfig LtState.chiprx_vidtiming_config c e).resched = true
      ∧ (moduleConfig LtState.chiprx_vidtiming_config c e).delay = 0 := by
  intro c e h
  simp only [moduleConfig, runVidTiming, h, Bool.false_eq_true, if_false]
  by_cases hf : e.fmt = 0x0a
  · simp [hf]
  · by_cases h30 : 30 < c + 1
    · simp [hf, h30]
    · simp [hf, h30]

/-- Witness for C2: a failure with format code 5 at counter 31 increments
to 32 and reschedules after 0 ms. -/
theorem vidtiming_failure_retry_c2_witness :
    (moduleConfig LtState.chiprx_vidtiming_config 31 envTimingFail).resched = true
    ∧ (moduleConfig LtState.chiprx_vidtiming_config 31 envTimingFail).delay = 0
    ∧ (moduleConfig LtState.chiprx_vidtiming_config 31 envTimingFail).counter
        = if envTimingFail.fmt = 0x0a then 0 else 31 + 1 :=
  ⟨(vidtiming_failure_retry_c2 31 envTimingFail rfl).2.2.2.1,
   (vidtiming_failure_retry_c2 31 envTimingFail rfl).2.2.2.2,
   (vidtiming_failure_retry_c2 31 envTimingFail rfl).1⟩

/-- C7: starting in Prepare with every stage succeeding at its first
attempt, a single invocation of `lt9211c_module_config` falls through all
the stages and ends in the video-out state without rescheduling the
deferred work. -/
theorem module_config_fallthrough_c7 :
    ∀ (c : Nat) (e : Env),
      e.timingConfigOk = true → e.pllConfigOk = true → e.txPllOk = true →
      (moduleConfig LtState.prepare c e).state = LtState.chiptx_video_out
      ∧ (moduleConfig LtState.prepare c e).resched = false := by
  intro c e h1 h2 h3
  simp [moduleConfig, runPrepare, runVidTiming, runPllConfig, runConfigVideo,
    runVideoOut, h1, h2, h3]

/-- Witness for C7: the all-success environment drives one invocation from
Prepare to the video-out state with no reschedule. -/
theorem module_config_fallthrough_c7_witness :
    (moduleConfig LtState.prepare 7 envAllOk).state = LtState.chiptx_video_out
    ∧ (moduleConfig LtState.prepare 7 envAllOk).resched = false :=
  module_config_fallthrough_c7 7 envAllOk rfl rfl rfl

end LT9211C
